import Mathlib

/-!
Verification of the admission-controlled PDF-conversion pipeline of
`api_server.py` (MinerU VLM PDF to Markdown service).

The effectful Python function `process_pdf_to_markdown` is shallowly
embedded as a pure Lean function over an oracle environment `Env` that
decides the outcome of every external interaction (health probe, temp
directory creation, preprocessing, backend call, markdown generation,
directory deletion).  Execution threads an explicit state `St` holding an
abstract clock (advanced only by the `time.sleep` calls of the source), the
`temp_dir` variable, and an event trace recording every observable action.
Machine-level concurrency of the process-wide lock and semaphore is
modelled separately by a guarded small-step transition system `GateStep`.
-/

namespace MineruPdf

/-- Outcome of one `requests.get` health probe: an HTTP response with a
status code, or a raised exception (timeout / connection error). -/
inductive ProbeOutcome where
  | status (code : Nat)
  | exn
deriving DecidableEq, Repr

/-- Embedding of `check_vlm_service` (api_server.py lines 40-46): returns
`status_code == 200` on a response, `False` on any exception. -/
def check_vlm_service (o : ProbeOutcome) : Bool :=
  match o with
  | .status code => code == 200
  | .exn => false

/-- Observable events of one execution of `process_pdf_to_markdown`. -/
inductive Event where
  | attemptHealth (ok : Bool)
  | waitHealth (ok : Bool)
  | sleep (secs : Nat)
  | mkdtempOk
  | mkdtempFail
  | lockAcquire
  | lockRelease
  | preprocessRun
  | semAcquire
  | semRelease
  | vlmRun
  | rmtreeAttempt
  | rmtreeOk
  | rmtreeFail
deriving DecidableEq, Repr

/-- Execution state threaded through the embedded function: abstract clock
(seconds, advanced by sleeps), the `temp_dir` local variable, and the
event trace. -/
structure St where
  clock : Nat
  tempDir : Option String
  trace : List Event
deriving DecidableEq, Repr

def emit (s : St) (es : List Event) : St :=
  { s with trace := s.trace ++ es }

def tick (s : St) (n : Nat) : St :=
  { s with clock := s.clock + n }

/-- Oracle environment deciding every external interaction.  Per-attempt
oracles are indexed by the attempt number `a` (0-based); the probes polled
inside `wait_for_vlm_service` on attempt `a` are indexed by the poll
number `k`. -/
structure Env where
  probe : Nat → ProbeOutcome
  waitProbe : Nat → Nat → ProbeOutcome
  mkdtemp : Nat → Except String String
  preprocess : Nat → Except String Unit
  prepareEnv : Nat → Except String String
  vlm : Nat → Except String Unit
  makeMd : Nat → Except String (String × Nat)
  rmtree : String → Except String Unit
  dirExists : String → Bool

/-- Polling loop of `wait_for_vlm_service` (lines 48-58): while elapsed
time is below `max_wait`, probe once; on success return `True`, otherwise
`time.sleep(2)` and poll again.  `p` is the number of polls left, `k` the
current poll index. -/
def waitLoopM (env : Env) (a : Nat) : Nat → Nat → St → Bool × St
  | 0, _, s => (false, s)
  | p + 1, k, s =>
    let r := check_vlm_service (env.waitProbe a k)
    let s1 := emit s [.waitHealth r]
    if r then (true, s1)
    else waitLoopM env a p (k + 1) (tick (emit s1 [.sleep 2]) 2)

/-- Embedding of `wait_for_vlm_service(max_wait=60)`: polls happen at
elapsed times `0, 2, 4, ...` while elapsed `< max_wait`, so exactly
`⌈max_wait / 2⌉` polls occur when no healthy answer arrives. -/
def wait_for_vlm_service (env : Env) (a : Nat) (max_wait : Nat) (s : St) : Bool × St :=
  waitLoopM env a ((max_wait + 1) / 2) 0 s

/-- The hard-coded retry budget of `process_pdf_to_markdown` (line 70). -/
def max_retries : Nat := 2

/-- Result dictionary returned by `process_pdf_to_markdown`: the success
dictionary (lines 119-125) or the failure dictionary (lines 138-143). -/
inductive WorkResult where
  | success (markdown : String) (pages : Nat) (processing_time : Nat) (filename : String)
  | failure (error : String) (processing_time : Nat) (filename : String)
deriving DecidableEq, Repr

/-- How the body of one attempt (the inner `try` of lines 74-125) ends:
a normal `return` value, the `continue` of the failed-health wait path
(line 80), or a raised exception. -/
inductive AttemptOut where
  | completed (markdown : String) (pages : Nat)
  | healthRetry
  | raised (msg : String)
deriving DecidableEq, Repr

/-- Embedding of the attempt body after `temp_dir` is set (lines 88-125):
the lock-guarded preprocessing, `prepare_env`, the semaphore-guarded VLM
call, and markdown generation.  The `with` blocks release their gate on
both the normal and the raising path. -/
def afterTemp (env : Env) (a : Nat) (s : St) : AttemptOut × St :=
  let s1 := emit s [.lockAcquire, .preprocessRun]
  match env.preprocess a with
  | .error m => (.raised m, emit s1 [.lockRelease])
  | .ok _ =>
    let s2 := emit s1 [.lockRelease]
    match env.prepareEnv a with
    | .error m => (.raised m, s2)
    | .ok _ =>
      let s3 := emit s2 [.semAcquire, .vlmRun]
      match env.vlm a with
      | .error m => (.raised m, emit s3 [.semRelease])
      | .ok _ =>
        let s4 := emit s3 [.semRelease]
        match env.makeMd a with
        | .error m => (.raised m, s4)
        | .ok (md, pages) => (.completed md pages, s4)

/-- Embedding of one attempt body (lines 74-125): health check first; if
unhealthy then either wait-and-`continue` (attempts remain) or raise the
terminal unavailability exception; otherwise create `temp_dir` if still
`None` (line 85) and run the processing phases. -/
def attemptBody (env : Env) (a : Nat) (s : St) : AttemptOut × St :=
  let h := check_vlm_service (env.probe a)
  let s1 := emit s [.attemptHealth h]
  if h then
    match s1.tempDir with
    | none =>
      match env.mkdtemp a with
      | .error m => (.raised m, emit s1 [.mkdtempFail])
      | .ok d => afterTemp env a (emit { s1 with tempDir := some d } [.mkdtempOk])
    | some _ => afterTemp env a s1
  else
    if a < max_retries then
      let r := wait_for_vlm_service env a 60 s1
      (.healthRetry, r.2)
    else
      (.raised "VLM service is unavailable after retries", s1)

/-- How one iteration of the `for attempt in range(...)` loop ends:
a `return` out of the function, a `continue` to the next iteration, or an
exception propagating out of the loop (the `raise e` of line 135). -/
inductive IterOut where
  | ret (r : WorkResult)
  | cont
  | fail (msg : String)
deriving DecidableEq, Repr

/-- One loop iteration including the `except` handler of lines 127-135:
an exception raised by the attempt body is retried after `time.sleep(2)`
while attempts remain, and re-raised on the final attempt. -/
def iterBody (env : Env) (fn : String) (a : Nat) (s : St) : IterOut × St :=
  match attemptBody env a s with
  | (.completed md pages, s1) => (.ret (.success md pages s1.clock fn), s1)
  | (.healthRetry, s1) => (.cont, s1)
  | (.raised m, s1) =>
    if a < max_retries then (.cont, tick (emit s1 [.sleep 2]) 2)
    else (.fail m, s1)

/-- How the whole `for` loop ends: a `return`, a propagating exception, or
falling off the end of the loop (in which case the Python function would
return `None`). -/
inductive LoopExit where
  | returned (r : WorkResult)
  | raised (msg : String)
  | fellThrough
deriving DecidableEq, Repr

/-- The retry loop `for attempt in range(max_retries + 1)` (line 73):
`a` is the current attempt index, `fuel` the number of iterations left. -/
def retryLoop (env : Env) (fn : String) : Nat → Nat → St → LoopExit × St
  | _, 0, s => (.fellThrough, s)
  | a, fuel + 1, s =>
    match iterBody env fn a s with
    | (.ret r, s1) => (.returned r, s1)
    | (.fail m, s1) => (.raised m, s1)
    | (.cont, s1) => retryLoop env fn (a + 1) fuel s1

/-- The outer `except` of lines 137-143 applied to the loop exit: a raised
exception becomes the failure dictionary; falling off the loop would make
the function return `None`. -/
def resultOfExit (fn : String) (clock : Nat) : LoopExit → Option WorkResult
  | .returned r => some r
  | .raised m => some (.failure m clock fn)
  | .fellThrough => none

/-- The `finally` block of lines 145-151: `if temp_dir and
os.path.exists(temp_dir): try: shutil.rmtree(temp_dir) except: pass`.
A deletion failure is swallowed (only a `rmtreeFail` event is recorded);
the Python empty string is falsy, hence the `isEmpty` test. -/
def cleanup (env : Env) (s : St) : St :=
  match s.tempDir with
  | none => s
  | some d =>
    if !d.isEmpty && env.dirExists d then
      let s1 := emit s [.rmtreeAttempt]
      match env.rmtree d with
      | .ok _ => emit s1 [.rmtreeOk]
      | .error _ => emit s1 [.rmtreeFail]
    else s

def initSt : St := ⟨0, none, []⟩

/-- Embedding of `process_pdf_to_markdown` (lines 60-151): run the retry
loop from attempt 0 with `max_retries + 1` iterations, convert the loop
exit to the returned dictionary, then run the `finally` cleanup. -/
def process_pdf_to_markdown (env : Env) (filename : String) : Option WorkResult × St :=
  let r := retryLoop env filename 0 (max_retries + 1) initSt
  (resultOfExit filename r.2.clock r.1, cleanup env r.2)

/-! Gate-discipline checker over a single execution trace: fold the trace
maintaining the per-thread lock depth and semaphore-permit depth; `none`
signals a violation (release without acquire, re-entrant acquire,
preprocessing outside the lock, VLM call outside a permit). -/

def gstep : Option (Nat × Nat) → Event → Option (Nat × Nat)
  | none, _ => none
  | some (l, c), e =>
    match e with
    | .lockAcquire => if l = 0 then some (1, c) else none
    | .lockRelease => if l = 1 then some (0, c) else none
    | .semAcquire => if c = 0 then some (l, 1) else none
    | .semRelease => if c = 1 then some (l, 0) else none
    | .preprocessRun => if l = 1 then some (l, c) else none
    | .vlmRun => if c = 1 then some (l, c) else none
    | _ => some (l, c)

def gateSeg (t : List Event) (p : Option (Nat × Nat)) : Option (Nat × Nat) :=
  t.foldl gstep p

/-! Process-wide gate model: `threading.Lock()` (line 31) and
`threading.Semaphore(2)` (line 34) as a guarded transition system over the
number of holders of each gate.  An acquire step is enabled only when the
primitive would not block. -/

/-- Process-wide gate state: how many threads hold the preprocessing lock
and how many semaphore permits are out. -/
structure GateSt where
  lockCount : Nat
  semCount : Nat
deriving DecidableEq, Repr

/-- Transitions of the process-wide gates: `threading.Lock.acquire` is
enabled only when the lock is free, `threading.Semaphore(2).acquire` only
when fewer than 2 permits are out; releases require a current holder. -/
inductive GateStep : GateSt → GateSt → Prop where
  | lockAcq (s : GateSt) : s.lockCount = 0 → GateStep s ⟨1, s.semCount⟩
  | lockRel (s : GateSt) : 0 < s.lockCount → GateStep s ⟨s.lockCount - 1, s.semCount⟩
  | semAcq (s : GateSt) : s.semCount < 2 → GateStep s ⟨s.lockCount, s.semCount + 1⟩
  | semRel (s : GateSt) : 0 < s.semCount → GateStep s ⟨s.lockCount, s.semCount - 1⟩

/-- States reachable from the initial all-free gate state. -/
inductive GateReach : GateSt → Prop where
  | init : GateReach ⟨0, 0⟩
  | step {s s1 : GateSt} : GateReach s → GateStep s s1 → GateReach s1

/-- Trace left by one full unsuccessful `wait_for_vlm_service` polling run
of `p` polls: each poll records the unhealthy probe and the 2-second
sleep. -/
def wtrace : Nat → List Event
  | 0 => []
  | p + 1 => .waitHealth false :: .sleep 2 :: wtrace p

/-- The complete trace of a request on which every health probe fails:
three in-attempt probes, with a full 60-second recovery wait (30 polls)
after each of the first two. -/
def allDownTrace : List Event :=
  .attemptHealth false :: (wtrace 30 ++
    (.attemptHealth false :: (wtrace 30 ++ [.attemptHealth false])))

/-- The complete trace of a request on which the backend is healthy but
`tempfile.mkdtemp` raises on every attempt: three health checks, three
allocation failures, and the two 2-second retry backoffs. -/
def allocDownTrace : List Event :=
  [.attemptHealth true, .mkdtempFail, .sleep 2,
   .attemptHealth true, .mkdtempFail, .sleep 2,
   .attemptHealth true, .mkdtempFail]

/-- Number of scratch directories a `temp_dir` value accounts for. -/
def tdCount : Option String → Nat
  | none => 0
  | some _ => 1

/-- Execution invariant maintained by the retry loop: the number of
successful `mkdtemp` calls matches the `temp_dir` variable, no deletion
has been attempted yet, and the gate discipline holds of the trace so far
with both gates currently free. -/
def Inv (s : St) : Prop :=
  s.trace.count .mkdtempOk = tdCount s.tempDir ∧
  s.trace.count .rmtreeAttempt = 0 ∧
  gateSeg s.trace (some (0, 0)) = some (0, 0)

/-! Concrete environments used as witnesses and counterexamples. -/

/-- Environment in which every probe raises (backend down the whole time);
the remaining oracles are irrelevant on the paths taken. -/
def envDown : Env where
  probe := fun _ => .exn
  waitProbe := fun _ _ => .exn
  mkdtemp := fun _ => .ok "tmpA"
  preprocess := fun _ => .ok ()
  prepareEnv := fun _ => .ok "imgs"
  vlm := fun _ => .ok ()
  makeMd := fun _ => .ok ("md", 3)
  rmtree := fun _ => .ok ()
  dirExists := fun _ => true

/-- Fully healthy environment: every step succeeds on the first attempt. -/
def envOk : Env where
  probe := fun _ => .status 200
  waitProbe := fun _ _ => .status 200
  mkdtemp := fun _ => .ok "tmpA"
  preprocess := fun _ => .ok ()
  prepareEnv := fun _ => .ok "imgs"
  vlm := fun _ => .ok ()
  makeMd := fun _ => .ok ("md", 3)
  rmtree := fun _ => .ok ()
  dirExists := fun _ => true

/-- Environment in which temp-directory creation raises on attempt 0 and
everything succeeds from attempt 1 on. -/
def envMkFailOnce : Env where
  probe := fun _ => .status 200
  waitProbe := fun _ _ => .status 200
  mkdtemp := fun a => if a = 0 then .error "mkdtemp failed" else .ok "tmpA"
  preprocess := fun _ => .ok ()
  prepareEnv := fun _ => .ok "imgs"
  vlm := fun _ => .ok ()
  makeMd := fun _ => .ok ("md", 3)
  rmtree := fun _ => .ok ()
  dirExists := fun _ => true

/-- Environment in which temp-directory creation raises on every attempt
while the backend stays healthy. -/
def envMkFailAlways : Env where
  probe := fun _ => .status 200
  waitProbe := fun _ _ => .status 200
  mkdtemp := fun _ => .error "disk full"
  preprocess := fun _ => .ok ()
  prepareEnv := fun _ => .ok "imgs"
  vlm := fun _ => .ok ()
  makeMd := fun _ => .ok ("md", 3)
  rmtree := fun _ => .ok ()
  dirExists := fun _ => true

/-- Fully healthy environment whose deletion oracle always raises. -/
def envRmFail : Env where
  probe := fun _ => .status 200
  waitProbe := fun _ _ => .status 200
  mkdtemp := fun _ => .ok "tmpA"
  preprocess := fun _ => .ok ()
  prepareEnv := fun _ => .ok "imgs"
  vlm := fun _ => .ok ()
  makeMd := fun _ => .ok ("md", 3)
  rmtree := fun _ => .error "Permission denied"
  dirExists := fun _ => true

/-- Calls the cleanup block can make: the `shutil.rmtree` deletion call,
and a call to the module logger. -/
inductive CleanupAct where
  | rmtreeCall
  | logCall
deriving DecidableEq, Repr

/-- Embedding of the `finally` block of lines 145-151 at one level finer
than `cleanup`: the list of calls the block performs.  The `except`
handler's body is `pass` (line 151), so no logger call follows a deletion
failure — the block performs at most the deletion call itself. -/
def cleanup_acts (env : Env) (td : Option String) : List CleanupAct :=
  match td with
  | none => []
  | some d =>
    if !d.isEmpty && env.dirExists d then
      match env.rmtree d with
      | .ok _ => [.rmtreeCall]
      | .error _ => [.rmtreeCall]
    else []

/-- Release behaviour as the spec's words describe it ("any deletion
failure is swallowed and logged"): the same guarded deletion call, but a
logger call is made when the deletion raises.  This definition follows
the spec, not the source, and exists only for comparison with
`cleanup_acts`. -/
def cleanup_acts_spec (env : Env) (td : Option String) : List CleanupAct :=
  match td with
  | none => []
  | some d =>
    if !d.isEmpty && env.dirExists d then
      match env.rmtree d with
      | .ok _ => [.rmtreeCall]
      | .error _ => [.rmtreeCall, .logCall]
    else []

/-! Basic lemmas about the trace checker and the invariant. -/

theorem gateSeg_append (t1 t2 : List Event) (p : Option (Nat × Nat)) :
    gateSeg (t1 ++ t2) p = gateSeg t2 (gateSeg t1 p) :=
  List.foldl_append gstep p t1 t2

theorem inv_mk (s : St) (c : Nat) (δ : List Event) (h : Inv s)
    (h1 : δ.count Event.mkdtempOk = 0) (h2 : δ.count Event.rmtreeAttempt = 0)
    (h3 : gateSeg δ (some (0, 0)) = some (0, 0)) :
    Inv ⟨c, s.tempDir, s.trace ++ δ⟩ := by
  obtain ⟨i1, i2, i3⟩ := h
  refine ⟨?_, ?_, ?_⟩
  · simpa [List.count_append, h1] using i1
  · simpa [List.count_append, h2] using i2
  · rw [show (⟨c, s.tempDir, s.trace ++ δ⟩ : St).trace = s.trace ++ δ from rfl,
      gateSeg_append, i3, h3]

theorem inv_mk_new (s : St) (c : Nat) (d : String) (δ : List Event) (h : Inv s)
    (hn : s.tempDir = none)
    (h1 : δ.count Event.mkdtempOk = 1) (h2 : δ.count Event.rmtreeAttempt = 0)
    (h3 : gateSeg δ (some (0, 0)) = some (0, 0)) :
    Inv ⟨c, some d, s.trace ++ δ⟩ := by
  obtain ⟨i1, i2, i3⟩ := h
  rw [hn] at i1
  simp only [tdCount] at i1
  refine ⟨?_, ?_, ?_⟩
  · simp [List.count_append, i1, h1, tdCount]
  · simpa [List.count_append, h2] using i2
  · rw [show (⟨c, some d, s.trace ++ δ⟩ : St).trace = s.trace ++ δ from rfl,
      gateSeg_append, i3, h3]

theorem waitLoopM_inv (env : Env) (a : Nat) :
    ∀ p k s, Inv s → Inv (waitLoopM env a p k s).2 := by
  intro p
  induction p with
  | zero => intro k s h; exact h
  | succ p ih =>
    intro k s h
    by_cases hr : check_vlm_service (env.waitProbe a k) = true
    · simp only [waitLoopM, hr, if_true]
      exact inv_mk s s.clock [.waitHealth true] h (by simp) (by simp) rfl
    · replace hr : check_vlm_service (env.waitProbe a k) = false := by simpa using hr
      simp only [waitLoopM, hr, Bool.false_eq_true, if_false]
      refine ih (k + 1) _ ?_
      have hs : tick (emit (emit s [.waitHealth false]) [.sleep 2]) 2
          = (⟨s.clock + 2, s.tempDir, s.trace ++ [.waitHealth false, .sleep 2]⟩ : St) := by
        simp [tick, emit]
      rw [hs]
      exact inv_mk s (s.clock + 2) [.waitHealth false, .sleep 2] h (by simp) (by simp) rfl

theorem emit_emit (s : St) (t1 t2 : List Event) : emit (emit s t1) t2 = emit s (t1 ++ t2) := by
  simp [emit]

theorem emit_tempDir (s : St) (t : List Event) : (emit s t).tempDir = s.tempDir := rfl

theorem inv_emit (s : St) (δ : List Event) (h : Inv s)
    (h1 : δ.count Event.mkdtempOk = 0) (h2 : δ.count Event.rmtreeAttempt = 0)
    (h3 : gateSeg δ (some (0, 0)) = some (0, 0)) : Inv (emit s δ) :=
  inv_mk s s.clock δ h h1 h2 h3

theorem afterTemp_inv (env : Env) (a : Nat) (s : St) (h : Inv s) :
    Inv (afterTemp env a s).2 := by
  unfold afterTemp
  rcases hpre : env.preprocess a with m | u <;> simp only [hpre, emit_emit]
  · exact inv_emit s _ h (by decide) (by decide) (by decide)
  · rcases hprep : env.prepareEnv a with m | d <;> simp only [hprep]
    · exact inv_emit s _ h (by decide) (by decide) (by decide)
    · rcases hv : env.vlm a with m | u2 <;> simp only [hv, emit_emit]
      · exact inv_emit s _ h (by decide) (by decide) (by decide)
      · rcases hm : env.makeMd a with m | md <;> simp only [hm]
        · exact inv_emit s _ h (by decide) (by decide) (by decide)
        · rcases md with ⟨md1, pg⟩
          exact inv_emit s _ h (by decide) (by decide) (by decide)

theorem attemptBody_inv (env : Env) (a : Nat) (s : St) (h : Inv s) :
    Inv (attemptBody env a s).2 := by
  unfold attemptBody
  by_cases hc : check_vlm_service (env.probe a) = true
  · simp only [hc, if_true, emit_tempDir]
    rcases htd : s.tempDir with _ | d
    · rcases hmk : env.mkdtemp a with m | d2 <;> simp only [hmk]
      · exact inv_emit (emit s [.attemptHealth true]) [.mkdtempFail]
          (inv_emit s _ h (by decide) (by decide) (by decide))
          (by decide) (by decide) (by decide)
      · have hs2 : emit { (emit s [.attemptHealth true]) with tempDir := some d2 } [.mkdtempOk]
            = (⟨s.clock, some d2, s.trace ++ [.attemptHealth true, .mkdtempOk]⟩ : St) := by
          simp [emit]
        rw [hs2]
        exact afterTemp_inv env a _
          (inv_mk_new s s.clock d2 _ h htd (by decide) (by decide) (by decide))
    · exact afterTemp_inv env a _ (inv_emit s _ h (by decide) (by decide) (by decide))
  · replace hc : check_vlm_service (env.probe a) = false := by simpa using hc
    simp only [hc, Bool.false_eq_true, if_false]
    split
    · exact waitLoopM_inv env a _ _ _ (inv_emit s _ h (by decide) (by decide) (by decide))
    · exact inv_emit s _ h (by decide) (by decide) (by decide)

theorem iterBody_inv (env : Env) (fn : String) (a : Nat) (s : St) (h : Inv s) :
    Inv (iterBody env fn a s).2 := by
  unfold iterBody
  rcases hab : attemptBody env a s with ⟨out, s1⟩
  have h1 : Inv s1 := by
    have h2 := attemptBody_inv env a s h
    rwa [hab] at h2
  rcases out with ⟨md, pg⟩ | _ | m <;> simp only [hab]
  · exact h1
  · exact h1
  · split
    · exact inv_mk s1 (s1.clock + 2) [.sleep 2] h1 (by decide) (by decide) (by decide)
    · exact h1

theorem retryLoop_inv (env : Env) (fn : String) :
    ∀ fuel a s, Inv s → Inv (retryLoop env fn a fuel s).2 := by
  intro fuel
  induction fuel with
  | zero => intro a s h; exact h
  | succ f ih =>
    intro a s h
    unfold retryLoop
    rcases hI : iterBody env fn a s with ⟨out, s1⟩
    have h1 : Inv s1 := by
      have h2 := iterBody_inv env fn a s h
      rwa [hI] at h2
    rcases out with r | _ | m <;> simp only [hI]
    · exact h1
    · exact ih _ _ h1
    · exact h1

theorem inv_init : Inv initSt := ⟨rfl, rfl, rfl⟩

theorem cleanup_tempDir (env : Env) (s : St) : (cleanup env s).tempDir = s.tempDir := by
  unfold cleanup
  rcases htd : s.tempDir with _ | d <;> simp only [htd]
  split
  · cases env.rmtree d <;> simp [emit, htd]
  · exact htd

theorem cleanup_count_mkdtempOk (env : Env) (s : St) :
    (cleanup env s).trace.count Event.mkdtempOk = s.trace.count Event.mkdtempOk := by
  unfold cleanup
  rcases htd : s.tempDir with _ | d <;> simp only [htd]
  split
  · cases env.rmtree d <;> simp [emit, List.count_append]
  · rfl

theorem cleanup_count_rm (env : Env) (s : St) :
    (cleanup env s).trace.count Event.rmtreeAttempt
      = s.trace.count Event.rmtreeAttempt +
        (match s.tempDir with
         | none => 0
         | some d => if !d.isEmpty && env.dirExists d then 1 else 0) := by
  unfold cleanup
  rcases htd : s.tempDir with _ | d <;> simp only [htd]
  · simp
  · split
    · rename_i hcond
      cases env.rmtree d <;> simp [emit, List.count_append, hcond]
    · rename_i hcond
      simp [hcond]

theorem gateSeg_emit (s : St) (δ : List Event) (p : Option (Nat × Nat)) :
    gateSeg (emit s δ).trace p = gateSeg δ (gateSeg s.trace p) :=
  gateSeg_append s.trace δ p

theorem cleanup_gate (env : Env) (s : St) (h : gateSeg s.trace (some (0, 0)) = some (0, 0)) :
    gateSeg (cleanup env s).trace (some (0, 0)) = some (0, 0) := by
  unfold cleanup
  rcases htd : s.tempDir with _ | d <;> simp only [htd]
  · exact h
  split
  · cases env.rmtree d <;> rw [gateSeg_emit, gateSeg_emit, h] <;> decide
  · exact h

theorem process_facts (env : Env) (fn : String) :
    (process_pdf_to_markdown env fn).2.trace.count Event.mkdtempOk
        = tdCount (process_pdf_to_markdown env fn).2.tempDir ∧
    (process_pdf_to_markdown env fn).2.trace.count Event.rmtreeAttempt
        = (match (process_pdf_to_markdown env fn).2.tempDir with
           | none => 0
           | some d => if !d.isEmpty && env.dirExists d then 1 else 0) ∧
    gateSeg (process_pdf_to_markdown env fn).2.trace (some (0, 0)) = some (0, 0) := by
  have hloop := retryLoop_inv env fn (max_retries + 1) 0 initSt inv_init
  obtain ⟨c1, c2, c3⟩ := hloop
  have h2 : (process_pdf_to_markdown env fn).2
      = cleanup env (retryLoop env fn 0 (max_retries + 1) initSt).2 := rfl
  rw [h2, cleanup_tempDir]
  refine ⟨?_, ?_, ?_⟩
  · rw [cleanup_count_mkdtempOk]; exact c1
  · rw [cleanup_count_rm, c2]; simp
  · exact cleanup_gate env _ c3

/-! The loop always exits through a `return` or an exception. -/

theorem afterTemp_ne_healthRetry (env : Env) (a : Nat) (s : St) :
    (afterTemp env a s).1 ≠ AttemptOut.healthRetry := by
  unfold afterTemp
  rcases env.preprocess a with m | u <;>
    rcases env.prepareEnv a with m2 | d <;>
      rcases env.vlm a with m3 | u2 <;>
        rcases env.makeMd a with m4 | md <;>
          (try rcases md with ⟨m5, p5⟩) <;> simp

theorem attemptBody_healthRetry_lt (env : Env) (a : Nat) (s : St)
    (h : (attemptBody env a s).1 = AttemptOut.healthRetry) : a < max_retries := by
  unfold attemptBody at h
  by_cases hc : check_vlm_service (env.probe a) = true
  · exfalso
    simp only [hc, if_true, emit_tempDir] at h
    rcases htd : s.tempDir with _ | d <;> simp only [htd] at h
    · rcases hmk : env.mkdtemp a with m | d2 <;> simp only [hmk] at h
      · exact AttemptOut.noConfusion h
      · exact afterTemp_ne_healthRetry env a _ h
    · exact afterTemp_ne_healthRetry env a _ h
  · replace hc : check_vlm_service (env.probe a) = false := by simpa using hc
    simp only [hc, Bool.false_eq_true, if_false] at h
    by_cases hlt : a < max_retries
    · exact hlt
    · rw [if_neg hlt] at h
      exact absurd h (by simp)

theorem iterBody_cont_lt (env : Env) (fn : String) (a : Nat) (s : St)
    (h : (iterBody env fn a s).1 = IterOut.cont) : a < max_retries := by
  unfold iterBody at h
  rcases hab : attemptBody env a s with ⟨out, s1⟩
  rw [hab] at h
  rcases out with ⟨md, pg⟩ | _ | m
  · simp at h
  · exact attemptBody_healthRetry_lt env a s (by rw [hab])
  · by_cases hlt : a < max_retries
    · exact hlt
    · simp [if_neg hlt] at h

theorem retryLoop_not_fellThrough (env : Env) (fn : String) :
    ∀ fuel a s, a + fuel = max_retries + 1 → 0 < fuel →
      (retryLoop env fn a fuel s).1 ≠ LoopExit.fellThrough := by
  intro fuel
  induction fuel with
  | zero => intro a s _ h0; omega
  | succ f ih =>
    intro a s hsum _
    unfold retryLoop
    rcases hI : iterBody env fn a s with ⟨out, s1⟩
    rcases out with r | _ | m <;> simp only [hI]
    · simp
    · have hlt : a < max_retries := iterBody_cont_lt env fn a s (by rw [hI])
      exact ih (a + 1) s1 (by omega) (by omega)
    · simp

theorem process_result_isSome (env : Env) (fn : String) :
    ∃ r, (process_pdf_to_markdown env fn).1 = some r := by
  have h := retryLoop_not_fellThrough env fn (max_retries + 1) 0 initSt (by omega) (by omega)
  rcases hE : retryLoop env fn 0 (max_retries + 1) initSt with ⟨ex, s1⟩
  rw [hE] at h
  rcases ex with r | m | _
  · exact ⟨r, by simp [process_pdf_to_markdown, hE, resultOfExit]⟩
  · exact ⟨.failure m s1.clock fn, by simp [process_pdf_to_markdown, hE, resultOfExit]⟩
  · simp at h

/-! The returned dictionary never depends on the deletion oracle. -/

theorem Env_upd_probe (env : Env) (r : String → Except String Unit) :
    ({ env with rmtree := r } : Env).probe = env.probe := rfl

theorem Env_upd_waitProbe (env : Env) (r : String → Except String Unit) :
    ({ env with rmtree := r } : Env).waitProbe = env.waitProbe := rfl

theorem Env_upd_mkdtemp (env : Env) (r : String → Except String Unit) :
    ({ env with rmtree := r } : Env).mkdtemp = env.mkdtemp := rfl

theorem Env_upd_preprocess (env : Env) (r : String → Except String Unit) :
    ({ env with rmtree := r } : Env).preprocess = env.preprocess := rfl

theorem Env_upd_prepareEnv (env : Env) (r : String → Except String Unit) :
    ({ env with rmtree := r } : Env).prepareEnv = env.prepareEnv := rfl

theorem Env_upd_vlm (env : Env) (r : String → Except String Unit) :
    ({ env with rmtree := r } : Env).vlm = env.vlm := rfl

theorem Env_upd_makeMd (env : Env) (r : String → Except String Unit) :
    ({ env with rmtree := r } : Env).makeMd = env.makeMd := rfl

theorem waitLoopM_rmtree (env : Env) (r : String → Except String Unit) (a : Nat) :
    ∀ p k s, waitLoopM { env with rmtree := r } a p k s = waitLoopM env a p k s := by
  intro p
  induction p with
  | zero => intro k s; rfl
  | succ p ih =>
    intro k s
    simp only [waitLoopM, Env_upd_waitProbe, ih]

theorem afterTemp_rmtree (env : Env) (r : String → Except String Unit) (a : Nat) (s : St) :
    afterTemp { env with rmtree := r } a s = afterTemp env a s := by
  simp only [afterTemp, Env_upd_preprocess, Env_upd_prepareEnv, Env_upd_vlm, Env_upd_makeMd]

theorem attemptBody_rmtree (env : Env) (r : String → Except String Unit) (a : Nat) (s : St) :
    attemptBody { env with rmtree := r } a s = attemptBody env a s := by
  simp only [attemptBody, wait_for_vlm_service, Env_upd_probe, Env_upd_mkdtemp,
    waitLoopM_rmtree, afterTemp_rmtree]

theorem iterBody_rmtree (env : Env) (r : String → Except String Unit) (fn : String)
    (a : Nat) (s : St) :
    iterBody { env with rmtree := r } fn a s = iterBody env fn a s := by
  simp only [iterBody, attemptBody_rmtree]

theorem retryLoop_rmtree (env : Env) (r : String → Except String Unit) (fn : String) :
    ∀ fuel a s, retryLoop { env with rmtree := r } fn a fuel s = retryLoop env fn a fuel s := by
  intro fuel
  induction fuel with
  | zero => intro a s; rfl
  | succ f ih =>
    intro a s
    simp only [retryLoop, iterBody_rmtree, ih]

/-! Exact computation of the run when every health probe fails. -/

theorem retryLoop_succ (env : Env) (fn : String) (a fuel : Nat) (s : St) :
    retryLoop env fn a (fuel + 1) s
      = match iterBody env fn a s with
        | (.ret r, s1) => (.returned r, s1)
        | (.fail m, s1) => (.raised m, s1)
        | (.cont, s1) => retryLoop env fn (a + 1) fuel s1 := rfl

theorem waitLoopM_false (env : Env) (a : Nat)
    (hw : ∀ k, check_vlm_service (env.waitProbe a k) = false) :
    ∀ p k s, waitLoopM env a p k s
      = (false, ⟨s.clock + 2 * p, s.tempDir, s.trace ++ wtrace p⟩) := by
  intro p
  induction p with
  | zero =>
    intro k s
    simp [waitLoopM, wtrace]
  | succ p ih =>
    intro k s
    simp only [waitLoopM, hw k, Bool.false_eq_true, if_false, ih (k + 1), emit, tick]
    simp only [Prod.mk.injEq, St.mk.injEq, true_and]
    refine ⟨by omega, ?_⟩
    simp [wtrace]

theorem iterBody_all_down (env : Env) (fn : String)
    (hp : ∀ a, check_vlm_service (env.probe a) = false)
    (hw : ∀ a k, check_vlm_service (env.waitProbe a k) = false)
    (a : Nat) (s : St) (ha : a < max_retries) :
    iterBody env fn a s
      = (.cont, ⟨s.clock + 60, s.tempDir,
          s.trace ++ (.attemptHealth false :: wtrace 30)⟩) := by
  simp only [iterBody, attemptBody, hp a, Bool.false_eq_true, if_false, if_pos ha,
    wait_for_vlm_service]
  rw [show (60 + 1) / 2 = 30 from rfl,
    waitLoopM_false env a (hw a) 30 0 (emit s [.attemptHealth false])]
  simp [emit]

theorem iterBody_down_last (env : Env) (fn : String)
    (hp : ∀ a, check_vlm_service (env.probe a) = false)
    (a : Nat) (ha : ¬ a < max_retries) (s : St) :
    iterBody env fn a s
      = (.fail "VLM service is unavailable after retries", emit s [.attemptHealth false]) := by
  simp [iterBody, attemptBody, hp a, if_neg ha]

theorem run_all_down (env : Env) (fn : String)
    (hp : ∀ a, check_vlm_service (env.probe a) = false)
    (hw : ∀ a k, check_vlm_service (env.waitProbe a k) = false) :
    process_pdf_to_markdown env fn
      = (some (.failure "VLM service is unavailable after retries" 120 fn),
         ⟨120, none, allDownTrace⟩) := by
  have hR : retryLoop env fn 0 (max_retries + 1) initSt
      = (.raised "VLM service is unavailable after retries", ⟨120, none, allDownTrace⟩) := by
    rw [show max_retries + 1 = 2 + 1 from rfl, retryLoop_succ,
      iterBody_all_down env fn hp hw 0 initSt (by decide)]
    show retryLoop env fn 1 (1 + 1) _ = _
    rw [retryLoop_succ, iterBody_all_down env fn hp hw 1 _ (by decide)]
    show retryLoop env fn 2 (0 + 1) _ = _
    rw [retryLoop_succ, iterBody_down_last env fn hp 2 (by decide)]
    simp [initSt, emit, allDownTrace]
  show (resultOfExit fn (retryLoop env fn 0 (max_retries + 1) initSt).2.clock
          (retryLoop env fn 0 (max_retries + 1) initSt).1,
        cleanup env (retryLoop env fn 0 (max_retries + 1) initSt).2) = _
  rw [hR]
  rfl

/-! Exact computation of the run when the backend is healthy but scratch
allocation raises on every attempt. -/

theorem iterBody_alloc_down (env : Env) (fn msg : String)
    (hp : ∀ a, check_vlm_service (env.probe a) = true)
    (hm : ∀ a, env.mkdtemp a = .error msg)
    (a : Nat) (s : St) (ha : a < max_retries) (htd : s.tempDir = none) :
    iterBody env fn a s
      = (.cont, ⟨s.clock + 2, none,
          s.trace ++ [.attemptHealth true, .mkdtempFail, .sleep 2]⟩) := by
  simp only [iterBody, attemptBody, hp a, if_true, emit_tempDir, htd, hm a, if_pos ha]
  simp [emit, tick, htd]

theorem iterBody_alloc_last (env : Env) (fn msg : String)
    (hp : ∀ a, check_vlm_service (env.probe a) = true)
    (hm : ∀ a, env.mkdtemp a = .error msg)
    (a : Nat) (ha : ¬ a < max_retries) (s : St) (htd : s.tempDir = none) :
    iterBody env fn a s
      = (.fail msg, ⟨s.clock, none, s.trace ++ [.attemptHealth true, .mkdtempFail]⟩) := by
  simp only [iterBody, attemptBody, hp a, if_true, emit_tempDir, htd, hm a, if_neg ha]
  simp [emit, htd]

theorem run_alloc_down (env : Env) (fn msg : String)
    (hp : ∀ a, check_vlm_service (env.probe a) = true)
    (hm : ∀ a, env.mkdtemp a = .error msg) :
    process_pdf_to_markdown env fn
      = (some (.failure msg 4 fn), ⟨4, none, allocDownTrace⟩) := by
  have hR : retryLoop env fn 0 (max_retries + 1) initSt
      = (.raised msg, ⟨4, none, allocDownTrace⟩) := by
    rw [show max_retries + 1 = 2 + 1 from rfl, retryLoop_succ,
      iterBody_alloc_down env fn msg hp hm 0 initSt (by decide) rfl]
    show retryLoop env fn 1 (1 + 1) _ = _
    rw [retryLoop_succ, iterBody_alloc_down env fn msg hp hm 1 _ (by decide) rfl]
    show retryLoop env fn 2 (0 + 1) _ = _
    rw [retryLoop_succ, iterBody_alloc_last env fn msg hp hm 2 (by decide) _ rfl]
    simp [initSt, allocDownTrace]
  show (resultOfExit fn (retryLoop env fn 0 (max_retries + 1) initSt).2.clock
          (retryLoop env fn 0 (max_retries + 1) initSt).1,
        cleanup env (retryLoop env fn 0 (max_retries + 1) initSt).2) = _
  rw [hR]
  rfl

/-! Safety bound of the process-wide gates. -/

theorem gateReach_bound : ∀ g, GateReach g → g.lockCount ≤ 1 ∧ g.semCount ≤ 2 := by
  intro g h
  induction h with
  | init => exact ⟨by decide, by decide⟩
  | step h1 hs ih =>
    rcases ih with ⟨ihl, ihs⟩
    cases hs with
    | lockAcq h0 => exact ⟨by simp, by simpa using ihs⟩
    | lockRel h0 => exact ⟨by simp; omega, by simpa using ihs⟩
    | semAcq h0 => exact ⟨by simpa using ihl, by simp; omega⟩
    | semRel h0 => exact ⟨by simpa using ihl, by simp; omega⟩

/-! Characterisation of the polling loop result. -/

theorem waitLoopM_true_iff (env : Env) (a : Nat) :
    ∀ p k s, (waitLoopM env a p k s).1 = true ↔
      ∃ j, j < p ∧ check_vlm_service (env.waitProbe a (k + j)) = true := by
  intro p
  induction p with
  | zero => intro k s; simp [waitLoopM]
  | succ p ih =>
    intro k s
    by_cases hr : check_vlm_service (env.waitProbe a k) = true
    · simp only [waitLoopM, hr, if_true]
      constructor
      · intro _
        exact ⟨0, by omega, by simpa using hr⟩
      · intro _
        trivial
    · replace hr : check_vlm_service (env.waitProbe a k) = false := by simpa using hr
      simp only [waitLoopM, hr, Bool.false_eq_true, if_false]
      rw [ih (k + 1)]
      constructor
      · rintro ⟨j, hj, hc⟩
        refine ⟨j + 1, by omega, ?_⟩
        have he : k + (j + 1) = k + 1 + j := by omega
        rwa [he]
      · rintro ⟨j, hj, hc⟩
        cases j with
        | zero =>
          rw [Nat.add_zero] at hc
          rw [hr] at hc
          exact absurd hc (by simp)
        | succ j =>
          refine ⟨j, by omega, ?_⟩
          have he : k + 1 + j = k + (j + 1) := by omega
          rwa [he]

/-! Claims. -/

/-- Claim C1, counterexample: when every health probe fails, a `WorkResult`
is returned but zero deletions of the temp directory are attempted, so
"exactly one scratch-area release (deletion of the temp directory) is
attempted ... including when the health check fails on every attempt" is
false as stated. -/
theorem claim_C1_counterexample :
    (process_pdf_to_markdown envDown "a.pdf").1
        = some (.failure "VLM service is unavailable after retries" 120 "a.pdf") ∧
    (process_pdf_to_markdown envDown "a.pdf").2.trace.count Event.rmtreeAttempt = 0 := by
  rw [run_all_down envDown "a.pdf" (fun _ => rfl) (fun _ _ => rfl)]
  dsimp only
  exact ⟨rfl, by decide⟩

/-- Claim C1 (amended): every call to `process_pdf_to_markdown` returns
exactly one `WorkResult` dictionary, and at most one deletion of the temp
directory is attempted — exactly one whenever a temp directory was created
(with a non-empty name) and still exists at cleanup time; when no temp
directory was created (e.g. the health check failed on every attempt) no
deletion is attempted. -/
theorem claim_C1 (env : Env) (fn : String) :
    (∃ r, (process_pdf_to_markdown env fn).1 = some r) ∧
    (process_pdf_to_markdown env fn).2.trace.count Event.rmtreeAttempt ≤ 1 ∧
    (∀ d, (process_pdf_to_markdown env fn).2.tempDir = some d →
      d.isEmpty = false → env.dirExists d = true →
      (process_pdf_to_markdown env fn).2.trace.count Event.rmtreeAttempt = 1) := by
  obtain ⟨h1, h2, h3⟩ := process_facts env fn
  refine ⟨process_result_isSome env fn, ?_, ?_⟩
  · rw [h2]
    rcases (process_pdf_to_markdown env fn).2.tempDir with _ | d
    · simp
    · dsimp only
      split <;> simp
  · intro d htd hie hde
    rw [h2, htd]
    simp [hie, hde]

/-- Claim C1 witness: in the fully healthy environment the theorem yields
one returned result and exactly one deletion attempt. -/
theorem claim_C1_witness :
    (∃ r, (process_pdf_to_markdown envOk "a.pdf").1 = some r) ∧
    (process_pdf_to_markdown envOk "a.pdf").2.trace.count Event.rmtreeAttempt ≤ 1 ∧
    (process_pdf_to_markdown envOk "a.pdf").2.trace.count Event.rmtreeAttempt = 1 := by
  obtain ⟨w1, w2, w3⟩ := claim_C1 envOk "a.pdf"
  exact ⟨w1, w2, w3 "tmpA" (by decide) (by decide) (by decide)⟩

/-- Claim C2, counterexample: `tempfile.mkdtemp` raises on attempt 0, yet
the request succeeds on attempt 1 after a retry backoff — the allocation
error is retried, not surfaced immediately as the request's failure
result. -/
theorem claim_C2_counterexample :
    (process_pdf_to_markdown envMkFailOnce "a.pdf").2.trace.count Event.mkdtempFail = 1 ∧
    (process_pdf_to_markdown envMkFailOnce "a.pdf").1
        = some (.success "md" 3 2 "a.pdf") := by
  constructor <;> decide

/-- Claim C2 (amended): a temp-directory allocation failure is handled
like any other attempt failure — retried after a 2-second backoff while
attempts remain, and surfaced as the failure result only when it also
occurs on the final attempt (here: allocation raising on every attempt
yields the failure after `max_retries + 1` attempts, with the 2 backoffs
in the elapsed time). -/
theorem claim_C2 (env : Env) (fn msg : String)
    (hp : ∀ a, check_vlm_service (env.probe a) = true)
    (hm : ∀ a, env.mkdtemp a = .error msg) :
    (process_pdf_to_markdown env fn).1 = some (.failure msg 4 fn) ∧
    (process_pdf_to_markdown env fn).2.trace.count Event.mkdtempFail = max_retries + 1 := by
  rw [run_alloc_down env fn msg hp hm]
  dsimp only
  exact ⟨rfl, by decide⟩

/-- Claim C2 witness: concrete instance of the amended claim with
allocation failing on all three attempts. -/
theorem claim_C2_witness :
    (process_pdf_to_markdown envMkFailAlways "a.pdf").1
        = some (.failure "disk full" 4 "a.pdf") ∧
    (process_pdf_to_markdown envMkFailAlways "a.pdf").2.trace.count Event.mkdtempFail
        = max_retries + 1 :=
  claim_C2 envMkFailAlways "a.pdf" "disk full" (fun _ => rfl) (fun _ => rfl)

/-- Claim C3: when the health probe is unhealthy on every attempt, exactly
`max_retries + 1 = 3` attempts run (three in-attempt health checks), the
result is the failure dictionary with message "VLM service is unavailable
after retries", and the elapsed time (120 s) is at least the sum of the
two 60-second health-wait backoffs incurred. -/
theorem claim_C3 (env : Env) (fn : String)
    (hp : ∀ a, check_vlm_service (env.probe a) = false)
    (hw : ∀ a k, check_vlm_service (env.waitProbe a k) = false) :
    (process_pdf_to_markdown env fn).1
        = some (.failure "VLM service is unavailable after retries" 120 fn) ∧
    (process_pdf_to_markdown env fn).2.trace.count (Event.attemptHealth false)
        = max_retries + 1 ∧
    60 + 60 ≤ (process_pdf_to_markdown env fn).2.clock := by
  rw [run_all_down env fn hp hw]
  dsimp only
  exact ⟨rfl, by decide, by decide⟩

/-- Claim C3 witness: concrete all-unhealthy environment. -/
theorem claim_C3_witness :
    (process_pdf_to_markdown envDown "b.pdf").1
        = some (.failure "VLM service is unavailable after retries" 120 "b.pdf") ∧
    (process_pdf_to_markdown envDown "b.pdf").2.trace.count (Event.attemptHealth false)
        = max_retries + 1 ∧
    60 + 60 ≤ (process_pdf_to_markdown envDown "b.pdf").2.clock :=
  claim_C3 envDown "b.pdf" (fun _ => rfl) (fun _ _ => rfl)

/-- Claim C4: in every execution the gate discipline holds — preprocessing
runs only while holding the lock, the backend call only while holding a
semaphore permit, and both gates are released on every exit path; and in
the process-wide gate model every reachable state has at most 1 lock
holder and at most 2 semaphore permits out. -/
theorem claim_C4 :
    (∀ env fn, gateSeg (process_pdf_to_markdown env fn).2.trace (some (0, 0)) = some (0, 0)) ∧
    (∀ g, GateReach g → g.lockCount ≤ 1 ∧ g.semCount ≤ 2) :=
  ⟨fun env fn => (process_facts env fn).2.2, gateReach_bound⟩

/-- Claim C4 witness: instance at the healthy environment and the initial
gate state. -/
theorem claim_C4_witness :
    gateSeg (process_pdf_to_markdown envOk "c.pdf").2.trace (some (0, 0)) = some (0, 0) ∧
    ((⟨0, 0⟩ : GateSt).lockCount ≤ 1 ∧ (⟨0, 0⟩ : GateSt).semCount ≤ 2) :=
  ⟨claim_C4.1 envOk "c.pdf", claim_C4.2 ⟨0, 0⟩ GateReach.init⟩

/-- Claim C5, counterexample: with the deletion oracle always raising, a
deletion failure occurs and is swallowed (the request still returns its
unchanged success result), but the cleanup block makes no logger call —
it performs only the deletion call, while the spec's "swallowed and
logged" behaviour would add a logger call — so "any deletion failure
during cleanup is swallowed and logged" is false as stated. -/
theorem claim_C5_counterexample :
    (process_pdf_to_markdown envRmFail "a.pdf").1
        = some (.success "md" 3 0 "a.pdf") ∧
    (process_pdf_to_markdown envRmFail "a.pdf").2.trace.count Event.rmtreeFail = 1 ∧
    cleanup_acts envRmFail (some "tmpA") = [CleanupAct.rmtreeCall] ∧
    cleanup_acts_spec envRmFail (some "tmpA") = [CleanupAct.rmtreeCall, CleanupAct.logCall] ∧
    (cleanup_acts envRmFail (some "tmpA")).count CleanupAct.logCall = 0 ∧
    (cleanup_acts_spec envRmFail (some "tmpA")).count CleanupAct.logCall = 1 := by
  exact ⟨by decide, by decide, by decide, by decide, by decide, by decide⟩

/-- Claim C5 (amended): scratch-area release never raises and never
changes the request's outcome — the returned dictionary is identical no
matter what the deletion oracle does (including always raising) — but a
deletion failure is silently swallowed, not logged: the bare
`except: pass` makes no logger call on any path of the cleanup block. -/
theorem claim_C5 :
    (∀ (env : Env) (r1 r2 : String → Except String Unit) (fn : String),
      (process_pdf_to_markdown { env with rmtree := r1 } fn).1
        = (process_pdf_to_markdown { env with rmtree := r2 } fn).1) ∧
    (∀ (env : Env) (td : Option String),
      (cleanup_acts env td).count CleanupAct.logCall = 0) := by
  constructor
  · intro env r1 r2 fn
    simp only [process_pdf_to_markdown, retryLoop_rmtree]
  · intro env td
    rcases td with _ | d
    · rfl
    · dsimp only [cleanup_acts]
      split
      · cases env.rmtree d <;> rfl
      · rfl

/-- Claim C6: the temp directory is created at most once across all retry
attempts of a request; no deletion is attempted before the loop's final
outcome is determined; and it is deleted exactly once in cleanup when it
was created (non-empty name) and still exists — zero times when it was
never created. -/
theorem claim_C6 (env : Env) (fn : String) :
    (process_pdf_to_markdown env fn).2.trace.count Event.mkdtempOk ≤ 1 ∧
    (retryLoop env fn 0 (max_retries + 1) initSt).2.trace.count Event.rmtreeAttempt = 0 ∧
    (∀ d, (process_pdf_to_markdown env fn).2.tempDir = some d →
      d.isEmpty = false → env.dirExists d = true →
      (process_pdf_to_markdown env fn).2.trace.count Event.rmtreeAttempt = 1) ∧
    ((process_pdf_to_markdown env fn).2.tempDir = none →
      (process_pdf_to_markdown env fn).2.trace.count Event.rmtreeAttempt = 0) := by
  obtain ⟨h1, h2, h3⟩ := process_facts env fn
  have hloop := (retryLoop_inv env fn (max_retries + 1) 0 initSt inv_init).2.1
  refine ⟨?_, hloop, ?_, ?_⟩
  · rw [h1]
    rcases (process_pdf_to_markdown env fn).2.tempDir with _ | d <;> simp [tdCount]
  · intro d htd hie hde
    rw [h2, htd]
    simp [hie, hde]
  · intro htd
    rw [h2, htd]

/-- Claim C6 witness: healthy run — directory created once and deleted
once. -/
theorem claim_C6_witness :
    (process_pdf_to_markdown envOk "d.pdf").2.trace.count Event.mkdtempOk ≤ 1 ∧
    (retryLoop envOk "d.pdf" 0 (max_retries + 1) initSt).2.trace.count Event.rmtreeAttempt = 0 ∧
    (process_pdf_to_markdown envOk "d.pdf").2.trace.count Event.rmtreeAttempt = 1 := by
  obtain ⟨w1, w2, w3, w4⟩ := claim_C6 envOk "d.pdf"
  exact ⟨w1, w2, w3 "tmpA" (by decide) (by decide) (by decide)⟩

/-- Claim C7: `check_vlm_service` never raises and always returns a
boolean (it is a total Bool-valued function); an exception (timeout or
connection error) yields `false`, it returns `true` only for the
successful response with status 200, and that response yields `true`. -/
theorem claim_C7 :
    check_vlm_service ProbeOutcome.exn = false ∧
    (∀ o, check_vlm_service o = false ∨ o = ProbeOutcome.status 200) ∧
    check_vlm_service (ProbeOutcome.status 200) = true := by
  refine ⟨rfl, ?_, rfl⟩
  intro o
  rcases o with c | _
  · by_cases hc : c = 200
    · subst hc
      right
      rfl
    · left
      simp [check_vlm_service, hc]
  · left
    rfl

/-- Claim C8: `wait_for_vlm_service` polls the probe every 2 seconds and
returns `true` iff a healthy result is observed at one of the polls that
fall inside `max_wait` (elapsed `2k < max_wait`); when no poll is healthy
it returns `false` after sleeping through the whole window. -/
theorem claim_C8 (env : Env) (a max_wait : Nat) (s : St) :
    ((wait_for_vlm_service env a max_wait s).1 = true ↔
      ∃ k, 2 * k < max_wait ∧ check_vlm_service (env.waitProbe a k) = true) ∧
    ((∀ k, check_vlm_service (env.waitProbe a k) = false) →
      (wait_for_vlm_service env a max_wait s).1 = false ∧
      (wait_for_vlm_service env a max_wait s).2.clock
        = s.clock + 2 * ((max_wait + 1) / 2)) := by
  constructor
  · rw [wait_for_vlm_service, waitLoopM_true_iff]
    constructor
    · rintro ⟨j, hj, hc⟩
      exact ⟨j, by omega, by simpa using hc⟩
    · rintro ⟨k, hk, hc⟩
      exact ⟨k, by omega, by simpa using hc⟩
  · intro hw
    rw [wait_for_vlm_service, waitLoopM_false env a hw ((max_wait + 1) / 2) 0 s]
    exact ⟨rfl, rfl⟩

/-- Claim C8 witness: with the probe always failing the wait returns
`false` after the full 60-second window. -/
theorem claim_C8_witness :
    (wait_for_vlm_service envDown 0 60 initSt).1 = false ∧
    (wait_for_vlm_service envDown 0 60 initSt).2.clock
      = initSt.clock + 2 * ((60 + 1) / 2) :=
  (claim_C8 envDown 0 60 initSt).2 (fun _ => rfl)

/-- Claim C9: when the health check fails on all `max_retries + 1`
attempts, no temp directory is created, the lock is never acquired, no
preprocessing and no backend call happens, no deletion is attempted, and
the failure carries the message "VLM service is unavailable after
retries". -/
theorem claim_C9 (env : Env) (fn : String)
    (hp : ∀ a, check_vlm_service (env.probe a) = false)
    (hw : ∀ a k, check_vlm_service (env.waitProbe a k) = false) :
    (process_pdf_to_markdown env fn).1
        = some (.failure "VLM service is unavailable after retries" 120 fn) ∧
    (process_pdf_to_markdown env fn).2.tempDir = none ∧
    (process_pdf_to_markdown env fn).2.trace.count Event.mkdtempOk = 0 ∧
    (process_pdf_to_markdown env fn).2.trace.count Event.lockAcquire = 0 ∧
    (process_pdf_to_markdown env fn).2.trace.count Event.preprocessRun = 0 ∧
    (process_pdf_to_markdown env fn).2.trace.count Event.semAcquire = 0 ∧
    (process_pdf_to_markdown env fn).2.trace.count Event.vlmRun = 0 ∧
    (process_pdf_to_markdown env fn).2.trace.count Event.rmtreeAttempt = 0 := by
  rw [run_all_down env fn hp hw]
  dsimp only
  refine ⟨rfl, rfl, ?_, ?_, ?_, ?_, ?_, ?_⟩ <;> decide

/-- Claim C9 witness: concrete all-unhealthy environment. -/
theorem claim_C9_witness :
    (process_pdf_to_markdown envDown "e.pdf").1
        = some (.failure "VLM service is unavailable after retries" 120 "e.pdf") ∧
    (process_pdf_to_markdown envDown "e.pdf").2.tempDir = none ∧
    (process_pdf_to_markdown envDown "e.pdf").2.trace.count Event.mkdtempOk = 0 ∧
    (process_pdf_to_markdown envDown "e.pdf").2.trace.count Event.lockAcquire = 0 ∧
    (process_pdf_to_markdown envDown "e.pdf").2.trace.count Event.preprocessRun = 0 ∧
    (process_pdf_to_markdown envDown "e.pdf").2.trace.count Event.semAcquire = 0 ∧
    (process_pdf_to_markdown envDown "e.pdf").2.trace.count Event.vlmRun = 0 ∧
    (process_pdf_to_markdown envDown "e.pdf").2.trace.count Event.rmtreeAttempt = 0 :=
  claim_C9 envDown "e.pdf" (fun _ => rfl) (fun _ _ => rfl)

/-- Claim C10: `check_vlm_service` reports healthy exactly for HTTP status
200 — any other status, including the 2xx codes 201 and 204, is reported
unhealthy. -/
theorem claim_C10 :
    (∀ c, check_vlm_service (ProbeOutcome.status c) = (c == 200)) ∧
    check_vlm_service (ProbeOutcome.status 201) = false ∧
    check_vlm_service (ProbeOutcome.status 204) = false ∧
    check_vlm_service (ProbeOutcome.status 200) = true :=
  ⟨fun c => rfl, by decide, by decide, by decide⟩

end MineruPdf
